import Mathlib

/-!
Shallow embedding of the unified download subsystem of the EmuMan desktop
manager (files `app/utils/downloader.py` and `app/core/file_processor.py`).

Modelling conventions:
* The aria2 subprocess, the HTTP response and the wall clock are inputs:
  an `Aria2Input` carries the stdout lines, the per-iteration values of the
  cancellation predicate and the exit code; a `RequestsInput` carries the
  received chunks with the `time.time()` value observed at each iteration.
* The filesystem is reduced to the facts the code inspects: whether the
  destination file and the aria2 control file exist.  `os.remove` is
  modelled as succeeding (the retry-on-lock machinery always wins).
* Progress callbacks are modelled by accumulating the argument tuples of
  every invocation into a list of events.
* Python floats are modelled by exact rationals; `int(x)` on a nonnegative
  quotient is the floor, i.e. natural division.
-/

namespace EmuMan

/-- Argument tuple of one `progress_callback(phase, current, total, speed)`
invocation made by the aria2 backend (speed is the formatted string). -/
structure Event where
  phase : String
  current : Nat
  total : Nat
  speed : String
deriving DecidableEq, Repr

/-- Numeric value of a string of decimal digits, as `int()` computes it. -/
def digitsVal (ds : List Char) : Nat :=
  ds.foldl (fun a c => a * 10 + (c.toNat - 48)) 0

/-- Character class `[0-9.]` of the aria2 progress regex. -/
def isDigitDot (c : Char) : Bool :=
  c.isDigit || c == '.'

/-- Greedy `p+`: the longest nonempty prefix of characters satisfying `p`,
with the remainder; `none` when the first character already fails. -/
def takeWhile1 (p : Char → Bool) (l : List Char) : Option (List Char × List Char) :=
  match l.takeWhile p with
  | [] => none
  | t => some (t, l.drop t.length)

/-- Match of `DL:([0-9.]+[a-zA-Z]+)` anchored at the current position,
returning the captured group.  Both character classes are greedy; no
backtracking can help because a character given back by `[0-9.]+` can never
satisfy `[a-zA-Z]`. -/
def matchSpeedAt : List Char → Option String
  | 'D' :: 'L' :: ':' :: rest =>
    match takeWhile1 isDigitDot rest with
    | none => none
    | some (num, rest2) =>
      match takeWhile1 Char.isAlpha rest2 with
      | none => none
      | some (unit, _) => some (String.mk (num ++ unit))
  | _ => none

/-- Lazy `.*?DL:([0-9.]+[a-zA-Z]+)`: the first position from which the
`DL:` group matches.  `.` does not cross a newline, so the scan stops
there. -/
def findSpeed : List Char → Option String
  | [] => none
  | c :: rest =>
    match matchSpeedAt (c :: rest) with
    | some s => some s
    | none => if c == '\n' then none else findSpeed rest

/-- Match of `\((\d+)%\)` anchored at the current position, returning the
captured percent value and the remainder of the line. -/
def matchPercentAt : List Char → Option (Nat × List Char)
  | '(' :: rest =>
    match takeWhile1 Char.isDigit rest with
    | none => none
    | some (ds, rest2) =>
      match rest2 with
      | '%' :: ')' :: rest3 => some (digitsVal ds, rest3)
      | _ => none
  | _ => none

/-- Semantics of `re.search` for the aria2 progress pattern
`\((\d+)%\).*?DL:([0-9.]+[a-zA-Z]+)`: the match attempt is made at every
position from the left; at a position where the percent part matches but no
speed follows, the search resumes one character further. -/
def aria2Search : List Char → Option (Nat × String)
  | [] => none
  | c :: rest =>
    match matchPercentAt (c :: rest) with
    | some (p, after) =>
      match findSpeed after with
      | some s => some (p, s)
      | none => aria2Search rest
    | none => aria2Search rest

/-- Captured groups `(percent, speed)` of the aria2 progress pattern on one
output line, when the pattern matches. -/
def aria2ParseLine (line : String) : Option (Nat × String) :=
  aria2Search line.data

/-- Progress event produced by `_download_aria2` for one output line:
phase is the literal string `download`, total is 100 and the speed string is
the captured group with `/s` appended. -/
def aria2LineEvent (line : String) : Option Event :=
  match aria2ParseLine line with
  | some (p, spd) => some ⟨"download", p, 100, spd ++ "/s"⟩
  | none => none

/-! ## Backend A: `Downloader._download_aria2` -/

/-- Environment of one `_download_aria2` invocation: the values returned by
`cancel_check()` at the successive top-of-loop polls (`false` once the list
is exhausted), the stdout lines read before EOF, the exit code of the
subprocess, and whether the subprocess had already created the destination
file respectively its `.aria2` control file when it stopped. -/
structure Aria2Input where
  cancels : List Bool
  lines : List String
  exitCode : Int
  wroteDest : Bool
  wroteCtrl : Bool
deriving DecidableEq, Repr

/-- Exit of the aria2 read loop: cancellation observed at a poll, or EOF
reached (the process has terminated).  Carries the progress events emitted
so far. -/
inductive Aria2LoopRes where
  | cancelled (events : List Event)
  | finished (events : List Event)
deriving DecidableEq, Repr

/-- Read loop of `_download_aria2`: each iteration first polls
`cancel_check()`, then reads one line; a line matching the progress pattern
is forwarded to the callback.  EOF with the process terminated exits the
loop. -/
def aria2Loop : List Bool → List String → List Event → Aria2LoopRes
  | cs, [], acc =>
    if cs.headD false then .cancelled acc else .finished acc
  | cs, l :: rest, acc =>
    if cs.headD false then .cancelled acc
    else
      aria2Loop cs.tail rest
        (match aria2LineEvent l with
         | some e => acc ++ [e]
         | none => acc)

/-- Outcome of one backend invocation: the boolean it returns, whether it
returned through its in-loop cancellation path, the events passed to the
progress callback, and the existence of the destination and control files
afterwards. -/
structure BackendResult where
  success : Bool
  cancelled : Bool
  events : List Event
  destExists : Bool
  ctrlExists : Bool
deriving DecidableEq, Repr

/-- Model of `Downloader._download_aria2`.  On an in-loop cancellation the
process is killed and both the control file and the partial destination
file are removed, and `False` is returned.  On EOF, exit code 0 emits a
final `(download, 100, 100, "")` event and returns `True`; any other exit
code returns `False` with no file cleanup. -/
def Downloader.download_aria2 (inp : Aria2Input) : BackendResult :=
  match aria2Loop inp.cancels inp.lines [] with
  | .cancelled evs => ⟨false, true, evs, false, false⟩
  | .finished evs =>
    if inp.exitCode = 0 then
      ⟨true, false, evs ++ [⟨"download", 100, 100, ""⟩], true, inp.wroteCtrl⟩
    else
      ⟨false, false, evs, inp.wroteDest, inp.wroteCtrl⟩

/-! ## Backend B: `Downloader._download_requests` -/

/-- One iteration of the chunk loop: the chunk size in bytes and the value
of `time.time()` observed at this iteration. -/
structure Chunk where
  size : Nat
  time : ℚ
deriving DecidableEq, Repr

/-- Environment of one `_download_requests` invocation: whether the GET or
`raise_for_status` raises, the `content-length` header (0 when absent), the
`time.time()` at the start, the chunks delivered by `iter_content`, the
values of `cancel_check()` at the successive per-chunk polls (`false` once
the list is exhausted), and whether the connection raises after the listed
chunks instead of ending the body. -/
structure RequestsInput where
  httpError : Bool
  totalSize : Nat
  startTime : ℚ
  chunks : List Chunk
  cancels : List Bool
  midError : Bool
deriving DecidableEq, Repr

/-- Argument tuple of one `progress_callback` invocation made by the
requests backend.  The speed argument is kept as the rational
bytes-per-second value handed to `Downloader.format_speed`; `none` stands
for the empty speed string. -/
structure REvent where
  phase : String
  current : Nat
  total : Nat
  speed : Option ℚ
deriving DecidableEq, Repr

/-- Exit of the requests chunk loop: cancellation observed at a poll, or
the body exhausted, with the events emitted so far. -/
inductive ReqLoopRes where
  | cancelled (events : List REvent)
  | done (events : List REvent)
deriving DecidableEq, Repr

/-- Speed value of one chunk iteration of `_download_requests`: with `d`
bytes downloaded and `time.time()` reading `t`, a value is computed exactly
when `t - last_speed_update > 0.5` — and `last_speed_update` is initialised
to the start time and never advanced, so the reference point is always the
start of the transfer — and it is `downloaded / duration`, the average
since the start.  The inner guard `duration > 0` is the code's own
(redundant) check. -/
def chunkSpeed (startTime : ℚ) (d : Nat) (t : ℚ) : Option ℚ :=
  if 1 / 2 < t - startTime then
    if 0 < t - startTime then some ((d : ℚ) / (t - startTime))
    else none
  else none

/-- Chunk loop of `_download_requests`: each iteration polls
`cancel_check()`, writes the chunk, and, when a content length is known,
reports percent `int(downloaded / total_size * 100)` together with the
`chunkSpeed` value. -/
def reqLoop (startTime : ℚ) (totalSize : Nat) :
    List Chunk → List Bool → Nat → List REvent → ReqLoopRes
  | [], _, _, acc => .done acc
  | ch :: rest, cs, downloaded, acc =>
    if cs.headD false then .cancelled acc
    else
      let d := downloaded + ch.size
      let acc2 :=
        if 0 < totalSize then
          acc ++ [⟨"download", d * 100 / totalSize, 100, chunkSpeed startTime d ch.time⟩]
        else acc
      reqLoop startTime totalSize rest cs.tail d acc2

/-- Outcome of one requests-backend invocation (fields as in
`BackendResult`; the requests backend touches no control file). -/
structure ReqResult where
  success : Bool
  cancelled : Bool
  events : List REvent
  destExists : Bool
deriving DecidableEq, Repr

/-- Model of `Downloader._download_requests`.  An HTTP error before the
body starts, or an error amid the body, lands in the handler that removes
the destination file and returns `False`; in-loop cancellation closes and
removes the file and returns `False`; a completed body emits a final
`(download, 100, 100, "")` event — whether or not a content length was
known — and returns `True`. -/
def Downloader.download_requests (inp : RequestsInput) : ReqResult :=
  if inp.httpError then ⟨false, false, [], false⟩
  else
    match reqLoop inp.startTime inp.totalSize inp.chunks inp.cancels 0 [] with
    | .cancelled evs => ⟨false, true, evs, false⟩
    | .done evs =>
      if inp.midError then ⟨false, false, evs, false⟩
      else ⟨true, false, evs ++ [⟨"download", 100, 100, none⟩], true⟩

/-! ## Unified entry point: `Downloader.download` -/

/-- Environment of one `Downloader.download` call: whether the
configuration permits aria2 (`downloader_type` is not `requests`), whether
`get_aria2_executable()` resolves one, whether `_download_aria2` raises an
exception (spawn failure or a crash of the read loop), the aria2
environment, whether a `cancel_check` callable was supplied, the value the
predicate yields at the re-check after the aria2 backend returns, and the
requests environment used if the fallback runs. -/
structure DlInput where
  useAria2 : Bool
  aria2Available : Bool
  spawnFails : Bool
  aria2 : Aria2Input
  cancelProvided : Bool
  cancelAfterA : Bool
  req : RequestsInput
deriving DecidableEq, Repr

/-- Outcome of one `Downloader.download` call: the returned boolean, how
many times each backend ran, the events each backend passed to the
callback, and whether the destination file exists afterwards. -/
structure DlResult where
  success : Bool
  aria2Runs : Nat
  requestsRuns : Nat
  aria2Events : List Event
  reqEvents : List REvent
  destExists : Bool
deriving DecidableEq, Repr

/-- Model of `Downloader.download`: aria2 is attempted first when the
configuration permits it and an executable resolves.  A `True` from aria2
is returned at once; after a `False`, `cancel_check and cancel_check()` is
re-evaluated and a positive answer returns `False` with no fallback; in
every other case — aria2 returned `False` without cancellation, aria2
raised, or aria2 was never tried — `_download_requests` runs and its result
is returned. -/
def Downloader.download (inp : DlInput) : DlResult :=
  if inp.useAria2 && inp.aria2Available then
    if inp.spawnFails then
      let rq := Downloader.download_requests inp.req
      ⟨rq.success, 1, 1, [], rq.events, rq.destExists⟩
    else
      let ra := Downloader.download_aria2 inp.aria2
      if ra.success then ⟨true, 1, 0, ra.events, [], true⟩
      else if inp.cancelProvided && inp.cancelAfterA then
        ⟨false, 1, 0, ra.events, [], ra.destExists⟩
      else
        let rq := Downloader.download_requests inp.req
        ⟨rq.success, 1, 1, ra.events, rq.events, rq.destExists⟩
  else
    let rq := Downloader.download_requests inp.req
    ⟨rq.success, 0, 1, [], rq.events, rq.destExists⟩

/-! ## Task wrapper: `DownloadThread` -/

/-- Terminal Qt signal emitted by `DownloadThread.run`. -/
inductive TSignal where
  | cancelledSig
  | finishedSig (ok : Bool) (msg : String)
deriving DecidableEq, Repr

/-- Model of `DownloadThread.run` restricted to its terminal signals: the
result of `Downloader.download` is either a boolean or an exception
message, and `runningAfter` is the value of `self._is_running` at the check
performed after `download` returns.  Each branch of the code emits exactly
the signals listed. -/
def DownloadThread.run (savePath : String) (result : Except String Bool)
    (runningAfter : Bool) : List TSignal :=
  match result with
  | .error e => [.finishedSig false e]
  | .ok ok =>
    if !runningAfter then [.cancelledSig]
    else if ok then [.finishedSig true savePath]
    else [.finishedSig false "Download failed"]

/-- Composition of `Downloader.download` with `DownloadThread.run`: the
thread emits its terminal signals and performs no filesystem operation, so
the destination-file state is exactly the one `download` left behind. -/
def DownloadThread.runFull (savePath : String) (dl : DlResult)
    (runningAfter : Bool) : List TSignal × Bool :=
  (DownloadThread.run savePath (.ok dl.success) runningAfter, dl.destExists)

/-! ## Start guard: `FileProcessor.start_download_task` -/

/-- State of a `DownloadThread` object as far as the start guard reads it:
the request it was built for and what `isRunning()` returns. -/
structure DThread where
  url : String
  savePath : String
  running : Bool
deriving DecidableEq, Repr

/-- State of a `FileProcessor`: `self.dl_thread`, `None` initially. -/
structure FPState where
  dl_thread : Option DThread
deriving DecidableEq, Repr

/-- Model of `FileProcessor.start_download_task`: when `self.dl_thread` is
set and `isRunning()`, the call returns at once; otherwise a fresh
`DownloadThread` for the request is created, stored and started.  The
second component is the newly started thread, `none` on the no-op path. -/
def FileProcessor.start_download_task (s : FPState) (url savePath : String) :
    FPState × Option DThread :=
  match s.dl_thread with
  | some t =>
    if t.running then (s, none)
    else
      let nt : DThread := ⟨url, savePath, true⟩
      (⟨some nt⟩, some nt)
  | none =>
    let nt : DThread := ⟨url, savePath, true⟩
    (⟨some nt⟩, some nt)

/-! ## Derived descriptions used by the theorems -/

/-- Events of an uncancelled pass of the requests chunk loop, described
chunk by chunk: with `d` bytes downloaded before the chunk, the chunk
contributes one event (percent of the new total, speed per `chunkSpeed`)
when the content length is known, and nothing otherwise. -/
def chunksEvents (st : ℚ) (T : Nat) : Nat → List Chunk → List REvent
  | _, [] => []
  | d, ch :: rest =>
    (if 0 < T then
      [⟨"download", (d + ch.size) * 100 / T, 100, chunkSpeed st (d + ch.size) ch.time⟩]
     else []) ++ chunksEvents st T (d + ch.size) rest

/-- Running byte totals after each chunk, starting from `d`. -/
def partialSums : Nat → List Chunk → List Nat
  | _, [] => []
  | d, ch :: rest => (d + ch.size) :: partialSums (d + ch.size) rest

/-! ## Concrete inputs for witnesses and counterexamples -/

/-- Aria2 output line of the C4 scenario. -/
def c4line : String := "[#abc123 4.0MiB/10.0MiB(40%) CN:1 DL:2.5MiB ETA:3s]"

/-- Requests environment that fails immediately (HTTP error, no chunks). -/
def reqFailInput : RequestsInput := ⟨true, 0, 0, [], [], false⟩

/-- Requests environment that succeeds with an empty body. -/
def reqOkInput : RequestsInput := ⟨false, 0, 0, [], [], false⟩

/-- Download environment of the C1 counterexample: aria2 runs, reads EOF
without ever seeing a positive cancel poll, exits with code 1 leaving a
partial destination file, and the cancellation predicate turns true just
before the re-check in `download`. -/
def c1input : DlInput :=
  ⟨true, true, false, ⟨[false], [], 1, true, true⟩, true, true, reqFailInput⟩

/-- Download environment whose outcome is a plain requests failure. -/
def c1winput : DlInput :=
  ⟨false, false, false, ⟨[], [], 0, false, false⟩, true, false, reqFailInput⟩

/-- Download environment of the C2 witness: aria2 exits nonzero and the
predicate reports cancellation at the re-check. -/
def c2input : DlInput :=
  ⟨true, true, false, ⟨[], [], 1, true, false⟩, true, true, reqOkInput⟩

/-- Download environment of the C3 witness: aria2 exits with code 1, no
cancellation, and the requests fallback succeeds. -/
def c3input : DlInput :=
  ⟨true, true, false, ⟨[], [], 1, true, false⟩, true, false, reqOkInput⟩

/-- Requests environment of the C5 counterexample: no `content-length`
header, two 64 KiB chunks, no cancellation, clean completion. -/
def c5input : RequestsInput := ⟨false, 0, 0, [⟨65536, 1⟩, ⟨65536, 2⟩], [], false⟩

/-- Requests environment of the C5 witness: no `content-length` header,
one 100-byte chunk arriving one second in. -/
def c5winput : RequestsInput := ⟨false, 0, 5, [⟨100, 6⟩], [], false⟩

/-- Download environment whose outcome is a requests success (aria2 not
permitted by the configuration). -/
def c10input : DlInput :=
  ⟨false, true, false, ⟨[], [], 0, false, false⟩, true, false, reqOkInput⟩

/-- Aria2 output lines reporting 50% and then 40% (as a multi-connection
download can after a failed connection), and the corresponding aria2
environment of the C7 counterexample: clean exit, no cancellation. -/
def c7lineA : String := "[#abc123 5.0MiB/10.0MiB(50%) CN:1 DL:1.0MiB ETA:5s]"

/-- Second aria2 output line of the C7 counterexample. -/
def c7lineB : String := "[#abc123 4.0MiB/10.0MiB(40%) CN:1 DL:1.0MiB ETA:6s]"

/-- Aria2 environment of the C7 counterexample. -/
def c7input : Aria2Input := ⟨[], [c7lineA, c7lineB], 0, true, false⟩

/-- Requests environment of the C7 witness: content length 100, two chunks
of 30 and 50 bytes, no cancellation. -/
def c7winput : RequestsInput := ⟨false, 100, 0, [⟨30, 1⟩, ⟨50, 2⟩], [], false⟩

/-- Aria2 environment of the C7 witness: one progress line at 40%, clean
exit. -/
def c7wainput : Aria2Input := ⟨[], [c4line], 0, true, false⟩

/-- Requests environment of the C8 counterexample: two chunks arriving 0.6
and 0.7 seconds after the start — only 0.1 s apart — with content length
100. -/
def c8input : RequestsInput := ⟨false, 100, 0, [⟨10, 3 / 5⟩, ⟨10, 7 / 10⟩], [], false⟩

/-!
## Lemmas

Helper facts shared by the claim theorems.
-/

/-- Head of an all-false cancellation poll list reads `false`. -/
theorem headD_eq_false {cs : List Bool} (h : ∀ c ∈ cs, c = false) :
    cs.headD false = false := by
  cases cs with
  | nil => rfl
  | cons c t => exact h c (List.mem_cons_self c t)

/-- Tails of an all-false poll list are all false. -/
theorem all_false_tail {cs : List Bool} (h : ∀ c ∈ cs, c = false) :
    ∀ c ∈ cs.tail, c = false :=
  fun c hc => h c (List.mem_of_mem_tail hc)

/-- Uncancelled pass of the requests chunk loop: the loop reaches the end
of the body and appends exactly the `chunksEvents` of the chunk list. -/
theorem reqLoop_no_cancel (st : ℚ) (T : Nat) :
    ∀ (chunks : List Chunk) (cs : List Bool) (d : Nat) (acc : List REvent),
      (∀ c ∈ cs, c = false) →
      reqLoop st T chunks cs d acc = .done (acc ++ chunksEvents st T d chunks)
  | [], cs, d, acc, h => by
    simp [reqLoop, chunksEvents]
  | ch :: rest, cs, d, acc, h => by
    rw [reqLoop, headD_eq_false h]
    simp only [Bool.false_eq_true, if_false]
    rw [reqLoop_no_cancel st T rest cs.tail (d + ch.size) _ (all_false_tail h),
      chunksEvents]
    by_cases hT : 0 < T
    · simp [hT]
    · simp [hT]

/-- Clean run of the requests backend: no HTTP error, no mid-body error and
an all-false cancellation predicate give success, the `chunksEvents` of the
body followed by the final 100% event, and a destination file left in
place. -/
theorem download_requests_no_cancel (inp : RequestsInput)
    (hh : inp.httpError = false) (hm : inp.midError = false)
    (hc : ∀ c ∈ inp.cancels, c = false) :
    Downloader.download_requests inp
      = ⟨true, false,
          chunksEvents inp.startTime inp.totalSize 0 inp.chunks
            ++ [⟨"download", 100, 100, none⟩], true⟩ := by
  rw [Downloader.download_requests, hh]
  simp only [Bool.false_eq_true, if_false]
  rw [reqLoop_no_cancel inp.startTime inp.totalSize inp.chunks inp.cancels 0 [] hc]
  simp [hm]

/-- Without a known content length no chunk contributes an event. -/
theorem chunksEvents_of_totalSize_zero (st : ℚ) :
    ∀ (d : Nat) (l : List Chunk), chunksEvents st 0 d l = []
  | _, [] => rfl
  | d, ch :: rest => by
    simp [chunksEvents, chunksEvents_of_totalSize_zero st (d + ch.size) rest]

/-- Requests backend: the destination file exists afterwards exactly when
the invocation succeeded (every failure path removes it). -/
theorem download_requests_destExists (inp : RequestsInput) :
    (Downloader.download_requests inp).destExists
      = (Downloader.download_requests inp).success := by
  rw [Downloader.download_requests]
  split
  · rfl
  · split
    · rfl
    · split <;> rfl

/-- Uncancelled pass of the aria2 read loop: the loop reaches EOF and
appends exactly the events of the lines matching the progress pattern. -/
theorem aria2Loop_no_cancel :
    ∀ (lines : List String) (cs : List Bool) (acc : List Event),
      (∀ c ∈ cs, c = false) →
      aria2Loop cs lines acc = .finished (acc ++ lines.filterMap aria2LineEvent)
  | [], cs, acc, h => by
    rw [aria2Loop, headD_eq_false h]
    simp
  | l :: rest, cs, acc, h => by
    rw [aria2Loop, headD_eq_false h]
    simp only [Bool.false_eq_true, if_false]
    rw [aria2Loop_no_cancel rest cs.tail _ (all_false_tail h)]
    cases hp : aria2LineEvent l <;> simp [List.filterMap_cons, hp]

/-- Clean zero-exit run of the aria2 backend: the events are those of the
matching lines followed by the final 100% event, and the destination file
is left in place. -/
theorem download_aria2_no_cancel (a : Aria2Input)
    (hc : ∀ c ∈ a.cancels, c = false) (he : a.exitCode = 0) :
    Downloader.download_aria2 a
      = ⟨true, false,
          a.lines.filterMap aria2LineEvent ++ [⟨"download", 100, 100, ""⟩],
          true, a.wroteCtrl⟩ := by
  rw [Downloader.download_aria2, aria2Loop_no_cancel a.lines a.cancels [] hc]
  simp [he]

/-- Aria2 backend: the in-loop cancellation path removes both the `.aria2`
control file and the partial destination file. -/
theorem download_aria2_cancel_cleanup (a : Aria2Input)
    (h : (Downloader.download_aria2 a).cancelled = true) :
    (Downloader.download_aria2 a).destExists = false ∧
    (Downloader.download_aria2 a).ctrlExists = false := by
  rw [Downloader.download_aria2] at h ⊢
  cases hL : aria2Loop a.cancels a.lines [] with
  | cancelled evs => exact ⟨rfl, rfl⟩
  | finished evs =>
    rw [hL] at h
    by_cases he : a.exitCode = 0 <;> simp [he] at h

/-- Member read off the `getLast?` of a list is a member of the list. -/
theorem mem_of_getLastOpt {α : Type _} {l : List α} {x : α}
    (h : x ∈ l.getLast?) : x ∈ l := by
  rcases List.mem_getLast?_eq_getLast h with ⟨hne, hx⟩
  rw [hx]
  exact List.getLast_mem hne

/-- Running byte totals are bounded below by the start value and above by
the start value plus the total body size. -/
theorem partialSums_le :
    ∀ (l : List Chunk) (d : Nat), ∀ x ∈ partialSums d l,
      d ≤ x ∧ x ≤ d + (l.map Chunk.size).sum
  | [], d, x, hx => by simp [partialSums] at hx
  | ch :: rest, d, x, hx => by
    rw [partialSums, List.mem_cons] at hx
    rw [List.map_cons, List.sum_cons]
    rcases hx with h | h
    · omega
    · have ih := partialSums_le rest (d + ch.size) x h
      omega

/-- Running byte totals are non-decreasing. -/
theorem partialSums_chain :
    ∀ (l : List Chunk) (d : Nat), List.Chain' (· ≤ ·) (partialSums d l)
  | [], _ => List.chain'_nil
  | ch :: rest, d => by
    rw [partialSums]
    refine List.chain'_cons'.2 ⟨?_, partialSums_chain rest (d + ch.size)⟩
    intro y hy
    exact (partialSums_le rest (d + ch.size) y (List.mem_of_mem_head? hy)).1

/-- With a known content length, the percent values of the chunk events
are the running byte totals scaled to hundredths of the total. -/
theorem chunksEvents_current (st : ℚ) (T : Nat) (hT : 0 < T) :
    ∀ (l : List Chunk) (d : Nat),
      (chunksEvents st T d l).map REvent.current
        = (partialSums d l).map (fun s => s * 100 / T)
  | [], _ => rfl
  | ch :: rest, d => by
    rw [chunksEvents, partialSums, if_pos hT]
    simp [chunksEvents_current st T hT rest (d + ch.size)]

/-- Requests backend, clean run with a known content length at least the
body size: percent values are non-decreasing and the final 100% event is
the last one delivered. -/
theorem requests_monotone_aux (inp : RequestsInput)
    (hh : inp.httpError = false) (hm : inp.midError = false)
    (hc : ∀ c ∈ inp.cancels, c = false) (hT : 0 < inp.totalSize)
    (hsum : (inp.chunks.map Chunk.size).sum ≤ inp.totalSize) :
    List.Chain' (· ≤ ·)
      ((Downloader.download_requests inp).events.map REvent.current) ∧
    (Downloader.download_requests inp).events.getLast?
      = some ⟨"download", 100, 100, none⟩ := by
  rw [download_requests_no_cancel inp hh hm hc]
  refine ⟨?_, List.getLast?_concat _⟩
  simp only [List.map_append]
  refine List.Chain'.append ?_ (List.chain'_singleton _) ?_
  · rw [chunksEvents_current inp.startTime inp.totalSize hT inp.chunks 0,
      List.chain'_map]
    exact (partialSums_chain inp.chunks 0).imp
      (fun a b hab => Nat.div_le_div_right (Nat.mul_le_mul_right 100 hab))
  · intro x hx y hy
    have hy100 : 100 = y := by simpa using hy
    have hx2 := mem_of_getLastOpt hx
    rw [chunksEvents_current inp.startTime inp.totalSize hT inp.chunks 0] at hx2
    rcases List.mem_map.1 hx2 with ⟨s, hs, rfl⟩
    have hsT : s ≤ inp.totalSize := by
      have := (partialSums_le inp.chunks 0 s hs).2
      omega
    rw [← hy100]
    calc s * 100 / inp.totalSize
        ≤ inp.totalSize * 100 / inp.totalSize :=
          Nat.div_le_div_right (Nat.mul_le_mul_right 100 hsT)
      _ = 100 := Nat.mul_div_cancel_left 100 hT

/-- Aria2 backend, clean zero-exit run whose parsed percent values are
non-decreasing and at most 100: the delivered percent values are
non-decreasing and the final 100% event is the last one delivered. -/
theorem aria2_monotone_aux (a : Aria2Input)
    (hc : ∀ c ∈ a.cancels, c = false) (he : a.exitCode = 0)
    (hchain : List.Chain' (· ≤ ·)
      ((a.lines.filterMap aria2LineEvent).map Event.current))
    (hle : ∀ e ∈ a.lines.filterMap aria2LineEvent, e.current ≤ 100) :
    List.Chain' (· ≤ ·)
      ((Downloader.download_aria2 a).events.map Event.current) ∧
    (Downloader.download_aria2 a).events.getLast?
      = some ⟨"download", 100, 100, ""⟩ := by
  rw [download_aria2_no_cancel a hc he]
  refine ⟨?_, List.getLast?_concat _⟩
  simp only [List.map_append]
  refine List.Chain'.append hchain (List.chain'_singleton _) ?_
  intro x hx y hy
  have hy100 : 100 = y := by simpa using hy
  have hx2 := mem_of_getLastOpt hx
  rcases List.mem_map.1 hx2 with ⟨e, he2, rfl⟩
  rw [← hy100]
  exact hle e he2

/-- Unified download: a successful outcome leaves the destination file in
place. -/
theorem download_success_dest (inp : DlInput) :
    (Downloader.download inp).success = true →
    (Downloader.download inp).destExists = true := by
  have hreq := download_requests_destExists inp.req
  by_cases h1 : (inp.useAria2 && inp.aria2Available) = true
  · by_cases h2 : inp.spawnFails = true
    · intro h
      simp only [Downloader.download, h1, h2, if_true] at h ⊢
      rw [hreq]
      exact h
    · by_cases h3 : (Downloader.download_aria2 inp.aria2).success = true
      · intro _
        simp [Downloader.download, h1, h2, h3]
      · by_cases h4 : (inp.cancelProvided && inp.cancelAfterA) = true
        · intro h
          simp [Downloader.download, h1, h2, h3, h4] at h
        · intro h
          simp [Downloader.download, h1, h2, h3, h4] at h ⊢
          rw [hreq]
          exact h
  · intro h
    simp [Downloader.download, h1] at h ⊢
    rw [hreq]
    exact h

/-!
## Claim theorems
-/

/-- C2: when the aria2 backend returns unsuccessfully and the cancellation
predicate evaluates to true at the re-check immediately afterwards,
`Downloader.download` returns an unsuccessful outcome and the requests
backend is never invoked. -/
theorem C2_no_fallback_on_cancel (inp : DlInput)
    (hu : inp.useAria2 = true) (ha : inp.aria2Available = true)
    (hs : inp.spawnFails = false)
    (hf : (Downloader.download_aria2 inp.aria2).success = false)
    (hp : inp.cancelProvided = true) (hc : inp.cancelAfterA = true) :
    (Downloader.download inp).success = false ∧
    (Downloader.download inp).requestsRuns = 0 := by
  simp [Downloader.download, hu, ha, hs, hf, hp, hc]

/-- Witness for C2: a concrete run in which aria2 exits with code 1 and
the predicate reports cancellation at the re-check. -/
theorem C2_no_fallback_on_cancel_witness :
    (Downloader.download c2input).success = false ∧
    (Downloader.download c2input).requestsRuns = 0 :=
  C2_no_fallback_on_cancel c2input rfl rfl rfl (by decide) rfl rfl

/-- C3: when the aria2 backend fails without cancellation — it raised, or
it returned unsuccessfully and the post-return cancellation re-check is
negative — `Downloader.download` runs the requests backend exactly once on
the same request and returns that backend's outcome. -/
theorem C3_fallback_once (inp : DlInput)
    (hu : inp.useAria2 = true) (ha : inp.aria2Available = true)
    (h : inp.spawnFails = true ∨
      (inp.spawnFails = false ∧
        (Downloader.download_aria2 inp.aria2).success = false ∧
        (inp.cancelProvided && inp.cancelAfterA) = false)) :
    (Downloader.download inp).requestsRuns = 1 ∧
    (Downloader.download inp).success
      = (Downloader.download_requests inp.req).success := by
  rcases h with hs | ⟨hs, hf, hc⟩
  · simp [Downloader.download, hu, ha, hs]
  · simp [Downloader.download, hu, ha, hs, hf, hc]

/-- Witness for C3: a concrete run in which aria2 exits with code 1, the
re-check is negative, and the requests fallback succeeds, so the caller
receives a single success outcome. -/
theorem C3_fallback_once_witness :
    (Downloader.download c3input).requestsRuns = 1 ∧
    (Downloader.download c3input).success
      = (Downloader.download_requests c3input.req).success :=
  C3_fallback_once c3input rfl rfl (Or.inr ⟨rfl, by decide, rfl⟩)

/-- C6: `DownloadThread.run` emits exactly one terminal signal — cancelled,
finished-success or finished-failure — for every download outcome,
including an exception, and for every value of the running flag. -/
theorem C6_exactly_one_terminal (savePath : String)
    (result : Except String Bool) (runningAfter : Bool) :
    (DownloadThread.run savePath result runningAfter).length = 1 := by
  cases result with
  | error e => rfl
  | ok ok => cases runningAfter <;> cases ok <;> rfl

/-- C9: calling `start_download_task` while the stored download thread is
running is a no-op — the state is unchanged and no new thread is created or
started. -/
theorem C9_start_guard (s : FPState) (url savePath : String) (t : DThread)
    (ht : s.dl_thread = some t) (hr : t.running = true) :
    FileProcessor.start_download_task s url savePath = (s, none) := by
  simp [FileProcessor.start_download_task, ht, hr]

/-- Witness for C9: a concrete state holding a running thread. -/
theorem C9_start_guard_witness :
    FileProcessor.start_download_task ⟨some ⟨"u", "p", true⟩⟩ "u2" "p2"
      = (⟨some ⟨"u", "p", true⟩⟩, none) :=
  C9_start_guard ⟨some ⟨"u", "p", true⟩⟩ "u2" "p2" ⟨"u", "p", true⟩ rfl rfl

/-- C10: when `stop()` flips the running flag after `Downloader.download`
has already returned success, the thread emits only the cancelled signal —
never finished — and performs no cleanup, so the fully downloaded file
remains at the destination path. -/
theorem C10_stop_after_success (savePath : String) (inp : DlInput)
    (h : (Downloader.download inp).success = true) :
    DownloadThread.runFull savePath (Downloader.download inp) false
      = ([TSignal.cancelledSig], true) := by
  have hd := download_success_dest inp h
  simp [DownloadThread.runFull, DownloadThread.run, hd]

/-- Witness for C10: a concrete successful requests-backend download
followed by a late stop. -/
theorem C10_stop_after_success_witness :
    DownloadThread.runFull "save.zip" (Downloader.download c10input) false
      = ([TSignal.cancelledSig], true) :=
  C10_stop_after_success "save.zip" c10input (by decide)

/-- C4 counterexample: on the scenario line, the backend invokes the
callback with phase `download` — the tuple with phase `downloading` the
claim promises is never passed. -/
theorem C4_counterexample :
    (Downloader.download_aria2 ⟨[], [c4line], 1, true, true⟩).events
      = [⟨"download", 40, 100, "2.5MiB/s"⟩] ∧
    (⟨"downloading", 40, 100, "2.5MiB/s"⟩ : Event)
      ∉ (Downloader.download_aria2 ⟨[], [c4line], 1, true, true⟩).events := by
  refine ⟨by decide, by decide⟩

/-- C4 amended: whenever the aria2 backend reads the line
`[#abc123 4.0MiB/10.0MiB(40%) CN:1 DL:2.5MiB ETA:3s]` in an uncancelled
run, the progress callback is invoked with phase `download`, current 40,
total 100 and speed string `2.5MiB/s` (percent from the parenthesized
percentage, speed from the `DL:` capture with `/s` appended). -/
theorem C4_amended_line_event (a : Aria2Input) (hmem : c4line ∈ a.lines)
    (hc : ∀ c ∈ a.cancels, c = false) :
    (⟨"download", 40, 100, "2.5MiB/s"⟩ : Event)
      ∈ (Downloader.download_aria2 a).events := by
  rw [Downloader.download_aria2, aria2Loop_no_cancel a.lines a.cancels [] hc]
  have hev : aria2LineEvent c4line = some ⟨"download", 40, 100, "2.5MiB/s"⟩ := by
    decide
  have hmem2 : (⟨"download", 40, 100, "2.5MiB/s"⟩ : Event)
      ∈ a.lines.filterMap aria2LineEvent :=
    List.mem_filterMap.2 ⟨c4line, hmem, hev⟩
  by_cases he : a.exitCode = 0 <;> simp [he, hmem2]

/-- Witness for the amended C4: the scenario line on its own. -/
theorem C4_amended_line_event_witness :
    (⟨"download", 40, 100, "2.5MiB/s"⟩ : Event)
      ∈ (Downloader.download_aria2 ⟨[], [c4line], 0, true, false⟩).events :=
  C4_amended_line_event ⟨[], [c4line], 0, true, false⟩ (by decide) (by decide)

/-- C1 counterexample: aria2 reads EOF without a positive in-loop cancel
poll, exits with code 1 leaving a partial destination file, and the
cancellation predicate is true at the re-check in `download` — the terminal
outcome is unsuccessful yet the destination file still exists. -/
theorem C1_counterexample :
    (Downloader.download c1input).success = false ∧
    (Downloader.download c1input).destExists = true := by
  refine ⟨by decide, by decide⟩

/-- C1 amended: on every unsuccessful terminal outcome the destination
file does not exist afterwards, with one exception: the aria2 backend
failed without observing an in-loop cancellation and the cancellation
predicate is true at the re-check, in which case `download` returns
unsuccessfully with no cleanup at all.  In addition, the in-loop aria2
cancellation path always removes both the `.aria2` control file and the
partial destination file. -/
theorem C1_amended_no_leak (inp : DlInput) :
    ((Downloader.download inp).success = false →
      ((inp.useAria2 && inp.aria2Available) = true ∧ inp.spawnFails = false ∧
        (Downloader.download_aria2 inp.aria2).success = false ∧
        (Downloader.download_aria2 inp.aria2).cancelled = false ∧
        (inp.cancelProvided && inp.cancelAfterA) = true) ∨
      (Downloader.download inp).destExists = false) ∧
    ((Downloader.download_aria2 inp.aria2).cancelled = true →
      (Downloader.download_aria2 inp.aria2).destExists = false ∧
      (Downloader.download_aria2 inp.aria2).ctrlExists = false) := by
  have hreq := download_requests_destExists inp.req
  constructor
  · intro hf
    by_cases h1 : (inp.useAria2 && inp.aria2Available) = true
    · by_cases h2 : inp.spawnFails = true
      · right
        simp only [Downloader.download, h1, h2, if_true] at hf ⊢
        rw [hreq]
        exact hf
      · by_cases h3 : (Downloader.download_aria2 inp.aria2).success = true
        · simp [Downloader.download, h1, h2, h3] at hf
        · by_cases h4 : (inp.cancelProvided && inp.cancelAfterA) = true
          · by_cases h5 : (Downloader.download_aria2 inp.aria2).cancelled = true
            · right
              have hcl := download_aria2_cancel_cleanup inp.aria2 h5
              simp [Downloader.download, h1, h2, h3, h4, hcl.1]
            · left
              refine ⟨h1, ?_, ?_, ?_, h4⟩
              · simpa using h2
              · simpa using h3
              · simpa using h5
          · right
            simp [Downloader.download, h1, h2, h3, h4] at hf ⊢
            rw [hreq]
            exact hf
    · right
      simp [Downloader.download, h1] at hf ⊢
      rw [hreq]
      exact hf
  · exact download_aria2_cancel_cleanup inp.aria2

/-- Witness for the amended C1: a plain requests-backend failure leaves no
destination file behind. -/
theorem C1_amended_no_leak_witness :
    (Downloader.download c1winput).destExists = false :=
  ((C1_amended_no_leak c1winput).1 (by decide)).resolve_left (by decide)

/-- C5 counterexample: with no `content-length` header, two received
chunks produce no per-chunk callback invocation at all — the only event of
the whole transfer is the final 100% success event. -/
theorem C5_counterexample :
    (Downloader.download_requests c5input).events
      = [⟨"download", 100, 100, none⟩] := by
  decide

/-- C5 amended: when the response carries no `content-length` header, the
requests backend never invokes the progress callback during the body; on
an uncancelled, error-free run the only callback invocation is the final
`(download, 100, 100, "")` event. -/
theorem C5_amended_no_progress_without_length (inp : RequestsInput)
    (h0 : inp.totalSize = 0) (hh : inp.httpError = false)
    (hm : inp.midError = false) (hc : ∀ c ∈ inp.cancels, c = false) :
    (Downloader.download_requests inp).events
      = [⟨"download", 100, 100, none⟩] := by
  rw [download_requests_no_cancel inp hh hm hc]
  simp only [h0]
  rw [chunksEvents_of_totalSize_zero inp.startTime 0 inp.chunks]
  simp

/-- Witness for the amended C5: one 100-byte chunk, no header. -/
theorem C5_amended_no_progress_without_length_witness :
    (Downloader.download_requests c5winput).events
      = [⟨"download", 100, 100, none⟩] :=
  C5_amended_no_progress_without_length c5winput rfl rfl rfl (by decide)

/-- C7 counterexample: the aria2 backend forwards the percents parsed from
the subprocess output verbatim, so when the process prints 50% and then
40%, the caller sees the non-monotone percent sequence 50, 40, 100. -/
theorem C7_counterexample :
    (Downloader.download_aria2 c7input).events.map Event.current
      = [50, 40, 100] ∧
    ¬ List.Chain' (· ≤ ·)
        ((Downloader.download_aria2 c7input).events.map Event.current) := by
  have hlist : (Downloader.download_aria2 c7input).events.map Event.current
      = [50, 40, 100] := by decide
  refine ⟨hlist, ?_⟩
  rw [hlist]
  intro h
  exact absurd (List.chain'_cons.1 h).1 (by decide)

/-- C7 amended: the requests backend upholds the property by construction
— on a clean run with a known content length at least the body size, its
percent sequence is non-decreasing and ends with the final 100% event,
which is the last event delivered.  The aria2 backend merely forwards the
percents parsed from the process output (appending a final 100% event on
exit code 0), so its sequence is non-decreasing exactly when the parsed
percents are non-decreasing and at most 100. -/
theorem C7_amended_monotone :
    (∀ inp : RequestsInput, inp.httpError = false → inp.midError = false →
      (∀ c ∈ inp.cancels, c = false) → 0 < inp.totalSize →
      (inp.chunks.map Chunk.size).sum ≤ inp.totalSize →
      List.Chain' (· ≤ ·)
        ((Downloader.download_requests inp).events.map REvent.current) ∧
      (Downloader.download_requests inp).events.getLast?
        = some ⟨"download", 100, 100, none⟩) ∧
    (∀ a : Aria2Input, (∀ c ∈ a.cancels, c = false) → a.exitCode = 0 →
      List.Chain' (· ≤ ·)
        ((a.lines.filterMap aria2LineEvent).map Event.current) →
      (∀ e ∈ a.lines.filterMap aria2LineEvent, e.current ≤ 100) →
      List.Chain' (· ≤ ·)
        ((Downloader.download_aria2 a).events.map Event.current) ∧
      (Downloader.download_aria2 a).events.getLast?
        = some ⟨"download", 100, 100, ""⟩) :=
  ⟨fun inp hh hm hc hT hsum => requests_monotone_aux inp hh hm hc hT hsum,
   fun a hc he hchain hle => aria2_monotone_aux a hc he hchain hle⟩

/-- Witness for the amended C7: a two-chunk requests transfer and a
one-line aria2 transfer, both clean. -/
theorem C7_amended_monotone_witness :
    (List.Chain' (· ≤ ·)
        ((Downloader.download_requests c7winput).events.map REvent.current) ∧
      (Downloader.download_requests c7winput).events.getLast?
        = some ⟨"download", 100, 100, none⟩) ∧
    (List.Chain' (· ≤ ·)
        ((Downloader.download_aria2 c7wainput).events.map Event.current) ∧
      (Downloader.download_aria2 c7wainput).events.getLast?
        = some ⟨"download", 100, 100, ""⟩) :=
  ⟨C7_amended_monotone.1 c7winput rfl rfl (by decide) (by decide) (by decide),
   C7_amended_monotone.2 c7wainput (by decide) rfl
     (by
       rw [show (c7wainput.lines.filterMap aria2LineEvent).map Event.current
             = [40] from by decide]
       exact List.chain'_singleton 40)
     (by decide)⟩

/-- C8 counterexample: two chunks arriving 0.6 s and 0.7 s after the start
— only 0.1 s apart — both carry a freshly computed speed value, because
`last_speed_update` is never advanced past the start time. -/
theorem C8_counterexample :
    (Downloader.download_requests c8input).events
      = [⟨"download", 10, 100, some (50 / 3)⟩,
         ⟨"download", 20, 100, some (200 / 7)⟩,
         ⟨"download", 100, 100, none⟩] ∧
    (7 / 10 : ℚ) - 3 / 5 < 1 / 2 := by
  constructor
  · norm_num [Downloader.download_requests, c8input, reqLoop, chunkSpeed]
  · norm_num

/-- C8 amended: on a clean run the events are exactly the per-chunk events
in which the speed value is computed — regardless of when a speed was last
reported — exactly for a chunk arriving more than 0.5 s after the start of
the transfer, and its value is the total bytes received so far divided by
the elapsed time since the start. -/
theorem C8_amended_speed (inp : RequestsInput) (hh : inp.httpError = false)
    (hm : inp.midError = false) (hc : ∀ c ∈ inp.cancels, c = false) :
    (Downloader.download_requests inp).events
      = chunksEvents inp.startTime inp.totalSize 0 inp.chunks
        ++ [⟨"download", 100, 100, none⟩] ∧
    ∀ (d : Nat) (t : ℚ), chunkSpeed inp.startTime d t
      = if 1 / 2 < t - inp.startTime then
          some ((d : ℚ) / (t - inp.startTime))
        else none := by
  constructor
  · rw [download_requests_no_cancel inp hh hm hc]
  · intro d t
    rw [chunkSpeed]
    by_cases hgt : 1 / 2 < t - inp.startTime
    · rw [if_pos hgt, if_pos hgt,
        if_pos (lt_trans (by norm_num : (0 : ℚ) < 1 / 2) hgt)]
    · rw [if_neg hgt, if_neg hgt]

/-- Witness for the amended C8: the two-chunk transfer of the
counterexample satisfies the event characterisation. -/
theorem C8_amended_speed_witness :
    (Downloader.download_requests c8input).events
      = chunksEvents c8input.startTime c8input.totalSize 0 c8input.chunks
        ++ [⟨"download", 100, 100, none⟩] :=
  (C8_amended_speed c8input rfl rfl (by decide)).1

end EmuMan
